import Mathlib

/-
Shallow embedding of the pxt-joystick-servo extension (src/main.ts,
namespace joystick_servo).  All numbers in the source are MakeCode/TypeScript
numbers used as integers (angles 0..180, raw ADC readings 0..1023, running
time in milliseconds), so they are modelled as Int.

State fields mirror the module-level variables of the source.  The two
callback slots are modelled as follows:
 - the button-press handler (_buttonPressedHandler) is arbitrary user code
   that may mutate the whole module state, so a tick is parameterised over
   `Option (State → State)` (none = no handler registered);
 - the angle-change handler (_angleChangedHandler) is kept as a Bool flag
   `hasAngleHandler` plus the Bool `angleCb` in the actuation output that
   records whether the source would invoke it.  This is exact because the
   guard of that invocation is proved to be identically false, so the
   handler never runs and can never mutate state.
The transient `_updated` flag is local to each tick (it is reset to false
before any use inside the gate), so it is modelled as a local value.
Hardware writes (pins.servoWritePin) and serial debug output are external
effects; the servo writes are recorded in the tick/actuation output.
-/

namespace JoystickServo

structure State where
  servoMinAngle : Int
  servoMaxAngle : Int
  servoInitAngle : Int
  servoStep : Int
  xMaxThresholdMin : Int
  xMaxThresholdMax : Int
  xMinThreshold : Int
  yMaxThresholdMin : Int
  yMaxThresholdMax : Int
  yMinThreshold : Int
  xAngle : Int
  yAngle : Int
  lastXAngle : Int
  lastYAngle : Int
  lastActionTime : Int
  hasAngleHandler : Bool
  deriving DecidableEq

/-- Output of one actuation pass (moveServos): the servo writes issued for
each axis, and whether the angle-changed handler guard fired. -/
structure MoveOut where
  writeX : Option Int
  writeY : Option Int
  angleCb : Bool
  deriving DecidableEq

/-- Output of one main-loop tick: servo writes, whether the button-press
handler was invoked, whether the angle-changed handler guard fired, and
whether the tick acted (entered the `if (_updated)` block). -/
structure TickOut where
  writeX : Option Int
  writeY : Option Int
  buttonCb : Bool
  angleCb : Bool
  acted : Bool
  deriving DecidableEq

def emptyOut : TickOut := ⟨none, none, false, false, false⟩

/-- One axis of the decision phase (src/main.ts lines 337-357):
if `thrMin < r && r <= thrMax` step up clamped at `mx`;
else if `r < minThr` step down clamped at `mn`; else unchanged.
Returns the new angle and whether `_updated` was set by this axis. -/
def decideAxis (thrMin thrMax minThr step mn mx a r : Int) : Int × Bool :=
  if thrMin < r ∧ r ≤ thrMax then (min (a + step) mx, true)
  else if r < minThr then (max (a - step) mn, true)
  else (a, false)

/-- X-axis decision applied to the state (lines 337-346). -/
def decisionX (s : State) (xv : Int) : State × Bool :=
  let p := decideAxis s.xMaxThresholdMin s.xMaxThresholdMax s.xMinThreshold
    s.servoStep s.servoMinAngle s.servoMaxAngle s.xAngle xv
  ({ s with xAngle := p.1 }, p.2)

/-- Y-axis decision applied to the state (lines 348-357). -/
def decisionY (s : State) (yv : Int) : State × Bool :=
  let p := decideAxis s.yMaxThresholdMin s.yMaxThresholdMax s.yMinThreshold
    s.servoStep s.servoMinAngle s.servoMaxAngle s.yAngle yv
  ({ s with yAngle := p.1 }, p.2)

/-- Button branch of the tick (lines 359-374).  Returns the state after the
branch, whether the registered handler was invoked, and whether `_updated`
was set by the branch. -/
def buttonBranch (bh : Option (State → State)) (s : State) (buttonState : Int) :
    State × Bool × Bool :=
  if buttonState = 0 then
    match bh with
    | some f => (f s, true, true)
    | none =>
      ({ s with xAngle := s.servoInitAngle, yAngle := s.servoInitAngle }, false, true)
  else (s, false, false)

/-- X half of moveServos (lines 288-295): write and update lastXAngle only
when the current angle differs from the last commanded one. -/
def moveServoX (s : State) : State × Option Int :=
  if s.xAngle ≠ s.lastXAngle then ({ s with lastXAngle := s.xAngle }, some s.xAngle)
  else (s, none)

/-- Y half of moveServos (lines 298-305). -/
def moveServoY (s : State) : State × Option Int :=
  if s.yAngle ≠ s.lastYAngle then ({ s with lastYAngle := s.yAngle }, some s.yAngle)
  else (s, none)

/-- moveServos (lines 286-311): per-axis conditional writes, then the
angle-changed guard `_angleChangedHandler && (_xAngle != _lastXAngle ||
_yAngle != _lastYAngle)` evaluated on the post-update state. -/
def moveServos (s : State) : State × MoveOut :=
  let px := moveServoX s
  let py := moveServoY px.1
  let cb := py.1.hasAngleHandler &&
    (decide (py.1.xAngle ≠ py.1.lastXAngle) || decide (py.1.yAngle ≠ py.1.lastYAngle))
  (py.1, ⟨px.2, py.2, cb⟩)

/-- Body of the gated region of one tick (lines 334-381): axis decisions,
button branch, then `if (_updated) { _lastActionTime = currentTime;
moveServos(); }`. -/
def gatedBody (bh : Option (State → State)) (s : State)
    (currentTime xValue yValue buttonState : Int) : State × TickOut :=
  let dx := decisionX s xValue
  let dy := decisionY dx.1 yValue
  let b := buttonBranch bh dy.1 buttonState
  if dx.2 || dy.2 || b.2.2 then
    let m := moveServos { b.1 with lastActionTime := currentTime }
    (m.1, ⟨m.2.writeX, m.2.writeY, b.2.1, m.2.angleCb, true⟩)
  else (b.1, ⟨none, none, b.2.1, false, false⟩)

/-- One iteration of the basic.forever body (lines 316-385), given the
sampled inputs of that tick.  The decision phase runs only when
`currentTime - _lastActionTime > 100`. -/
def tick (bh : Option (State → State)) (s : State)
    (currentTime xValue yValue buttonState : Int) : State × TickOut :=
  if currentTime - s.lastActionTime > 100 then
    gatedBody bh s currentTime xValue yValue buttonState
  else (s, emptyOut)

/-- Input sample of one tick. -/
structure TickIn where
  currentTime : Int
  xValue : Int
  yValue : Int
  buttonState : Int
  deriving DecidableEq

/-- Run a sequence of ticks with no registered button handler. -/
def runTicks (s : State) : List TickIn → State
  | [] => s
  | i :: rest => runTicks (tick none s i.currentTime i.xValue i.yValue i.buttonState).1 rest

/-- setServoLimits (lines 130-148): overwrites the four configuration
fields and sets both current angles to the new initial angle.  It issues
no write itself (no moveServos call). -/
def setServoLimits (s : State) (minAngle maxAngle initAngle step : Int) : State :=
  { s with servoMinAngle := minAngle, servoMaxAngle := maxAngle,
           servoInitAngle := initAngle, servoStep := step,
           xAngle := initAngle, yAngle := initAngle }

/-- MakeCode Math.constrain(v, lo, hi) = Math.min(Math.max(v, lo), hi). -/
def constrain (v lo hi : Int) : Int := min (max v lo) hi

/-- setServoAngles (lines 241-248): clamp both arguments into
[servoMinAngle, servoMaxAngle], store them, then run moveServos. -/
def setServoAngles (s : State) (xa ya : Int) : State × MoveOut :=
  moveServos { s with xAngle := constrain xa s.servoMinAngle s.servoMaxAngle,
                      yAngle := constrain ya s.servoMinAngle s.servoMaxAngle }

/-- getXAngle (lines 270-272). -/
def getXAngle (s : State) : Int := s.xAngle

/-- getYAngle (lines 281-283). -/
def getYAngle (s : State) : Int := s.yAngle

/-- A state with the source's default configuration (lines 24-47) and both
axes at the initial angle. -/
def baseState : State :=
  { servoMinAngle := 0, servoMaxAngle := 180, servoInitAngle := 90, servoStep := 15,
    xMaxThresholdMin := 760, xMaxThresholdMax := 780, xMinThreshold := 250,
    yMaxThresholdMin := 760, yMaxThresholdMax := 800, yMinThreshold := 250,
    xAngle := 90, yAngle := 90, lastXAngle := 90, lastYAngle := 90,
    lastActionTime := 0, hasAngleHandler := false }

/-! Helper lemmas about the actuation pass. -/

lemma moveServoX_state (s : State) :
    (moveServoX s).1 = { s with lastXAngle := s.xAngle } := by
  unfold moveServoX
  split
  · rfl
  · rename_i h
    cases s
    simp_all

lemma moveServoY_state (s : State) :
    (moveServoY s).1 = { s with lastYAngle := s.yAngle } := by
  unfold moveServoY
  split
  · rfl
  · rename_i h
    cases s
    simp_all

lemma moveServos_state (s : State) :
    (moveServos s).1 = { s with lastXAngle := s.xAngle, lastYAngle := s.yAngle } := by
  unfold moveServos
  simp only [moveServoX_state, moveServoY_state]

lemma moveServoX_write (s : State) :
    (moveServoX s).2 = if s.xAngle ≠ s.lastXAngle then some s.xAngle else none := by
  unfold moveServoX
  split <;> simp_all

lemma moveServos_writeX (s : State) :
    (moveServos s).2.writeX = if s.xAngle ≠ s.lastXAngle then some s.xAngle else none := by
  unfold moveServos
  simp only [moveServoX_write]

lemma moveServos_writeY (s : State) :
    (moveServos s).2.writeY = if s.yAngle ≠ s.lastYAngle then some s.yAngle else none := by
  unfold moveServos
  simp only [moveServoX_state]
  unfold moveServoY
  split <;> simp_all

lemma moveServos_angleCb (s : State) : (moveServos s).2.angleCb = false := by
  unfold moveServos
  simp [moveServoX_state, moveServoY_state]

/-- Raw reading region that triggers an angle increase. -/
def raiseCond (thrMin thrMax r : Int) : Prop := thrMin < r ∧ r ≤ thrMax

/-- Raw reading region that triggers an angle decrease. -/
def lowerCond (thrMin thrMax minThr r : Int) : Prop :=
  ¬ raiseCond thrMin thrMax r ∧ r < minThr

/-- Raw reading region that leaves the angle unchanged. -/
def holdCond (thrMin thrMax minThr r : Int) : Prop :=
  ¬ raiseCond thrMin thrMax r ∧ minThr ≤ r

lemma tick_no_button_angles (bh : Option (State → State)) (s : State)
    (ct xv yv bs : Int) (hg : ct - s.lastActionTime > 100) (hb : bs ≠ 0) :
    (tick bh s ct xv yv bs).1.xAngle =
      (decideAxis s.xMaxThresholdMin s.xMaxThresholdMax s.xMinThreshold
        s.servoStep s.servoMinAngle s.servoMaxAngle s.xAngle xv).1 ∧
    (tick bh s ct xv yv bs).1.yAngle =
      (decideAxis s.yMaxThresholdMin s.yMaxThresholdMax s.yMinThreshold
        s.servoStep s.servoMinAngle s.servoMaxAngle s.yAngle yv).1 := by
  unfold tick
  rw [if_pos hg]
  unfold gatedBody
  simp only [buttonBranch, if_neg hb]
  split <;> simp [moveServos_state, decisionX, decisionY]

/-! Theorems for the claims. -/

/-- C3: in every actuation pass (moveServos), for each axis independently a
hardware servo write is issued exactly when `currentAngle` differs from
`lastCommandedAngle`, and afterwards `lastCommandedAngle` equals
`currentAngle`; hence an immediately repeated pass with the same angles
issues no further write, so a changed angle produces exactly one write
across two consecutive passes. -/
theorem moveServos_write_iff (s : State) :
    ((moveServos s).2.writeX = if s.xAngle ≠ s.lastXAngle then some s.xAngle else none) ∧
    ((moveServos s).2.writeY = if s.yAngle ≠ s.lastYAngle then some s.yAngle else none) ∧
    (moveServos s).1.lastXAngle = s.xAngle ∧
    (moveServos s).1.lastYAngle = s.yAngle ∧
    (moveServos (moveServos s).1).2.writeX = none ∧
    (moveServos (moveServos s).1).2.writeY = none ∧
    (s.xAngle ≠ s.lastXAngle →
      (moveServos s).2.writeX = some s.xAngle ∧
      (moveServos (moveServos s).1).2.writeX = none) ∧
    (s.yAngle ≠ s.lastYAngle →
      (moveServos s).2.writeY = some s.yAngle ∧
      (moveServos (moveServos s).1).2.writeY = none) := by
  refine ⟨moveServos_writeX s, moveServos_writeY s, ?_, ?_, ?_, ?_, ?_, ?_⟩
  · rw [moveServos_state]
  · rw [moveServos_state]
  · rw [moveServos_writeX, moveServos_state]
    simp
  · rw [moveServos_writeY, moveServos_state]
    simp
  · intro h
    rw [moveServos_writeX, moveServos_writeX, moveServos_state]
    simp [h]
  · intro h
    rw [moveServos_writeY, moveServos_writeY, moveServos_state]
    simp [h]

/-- Witness for moveServos_write_iff at a concrete state where the X angle
differs from the last commanded one. -/
theorem moveServos_write_iff_witness :
    ({ baseState with xAngle := 105 }.xAngle ≠ { baseState with xAngle := 105 }.lastXAngle) ∧
    (moveServos { baseState with xAngle := 105 }).2.writeX = some 105 ∧
    (moveServos (moveServos { baseState with xAngle := 105 }).1).2.writeX = none :=
  ⟨by decide,
   ((moveServos_write_iff { baseState with xAngle := 105 }).2.2.2.2.2.2.1 (by decide)).1,
   ((moveServos_write_iff { baseState with xAngle := 105 }).2.2.2.2.2.2.1 (by decide)).2⟩

/-- C4: the angle-changed callback guard in moveServos compares
`currentAngle` with `lastCommandedAngle` only after both axes'
`lastCommandedAngle` were already updated to `currentAngle` in the same
pass, so the guard is false in every state and the registered
onAngleChanged handler is never invoked by moveServos. -/
theorem moveServos_angle_callback_never_fires (s : State) :
    (moveServos s).2.angleCb = false :=
  moveServos_angleCb s

/-- C1: per gated tick and per axis, a reading in `(thrMin, thrMax]` steps
the angle up to `min (a + step) mx`; otherwise a reading below `minThr`
steps it down to `max (a - step) mn`; otherwise (at least `minThr` and
either at most `thrMin` or above `thrMax`) the angle is unchanged.  Exactly
one of the three outcome regions applies, and within a gated tick with the
button not pressed each axis's resulting angle is exactly its own
decideAxis result, independent of the other axis. -/
theorem axis_decision_trichotomy (thrMin thrMax minThr step mn mx a r : Int) :
    (raiseCond thrMin thrMax r →
      decideAxis thrMin thrMax minThr step mn mx a r = (min (a + step) mx, true)) ∧
    (¬ raiseCond thrMin thrMax r → r < minThr →
      decideAxis thrMin thrMax minThr step mn mx a r = (max (a - step) mn, true)) ∧
    (minThr ≤ r → (r ≤ thrMin ∨ thrMax < r) →
      decideAxis thrMin thrMax minThr step mn mx a r = (a, false)) ∧
    ((raiseCond thrMin thrMax r ∧ ¬ lowerCond thrMin thrMax minThr r ∧
        ¬ holdCond thrMin thrMax minThr r) ∨
     (lowerCond thrMin thrMax minThr r ∧ ¬ raiseCond thrMin thrMax r ∧
        ¬ holdCond thrMin thrMax minThr r) ∨
     (holdCond thrMin thrMax minThr r ∧ ¬ raiseCond thrMin thrMax r ∧
        ¬ lowerCond thrMin thrMax minThr r)) ∧
    (∀ (bh : Option (State → State)) (s : State) (ct xv yv bs : Int),
      ct - s.lastActionTime > 100 → bs ≠ 0 →
      (tick bh s ct xv yv bs).1.xAngle =
        (decideAxis s.xMaxThresholdMin s.xMaxThresholdMax s.xMinThreshold
          s.servoStep s.servoMinAngle s.servoMaxAngle s.xAngle xv).1 ∧
      (tick bh s ct xv yv bs).1.yAngle =
        (decideAxis s.yMaxThresholdMin s.yMaxThresholdMax s.yMinThreshold
          s.servoStep s.servoMinAngle s.servoMaxAngle s.yAngle yv).1) := by
  refine ⟨?_, ?_, ?_, ?_, ?_⟩
  · intro h
    unfold raiseCond at h
    unfold decideAxis
    rw [if_pos h]
  · intro h1 h2
    unfold raiseCond at h1
    unfold decideAxis
    rw [if_neg h1, if_pos h2]
  · intro h1 h2
    have hp1 : ¬(thrMin < r ∧ r ≤ thrMax) := by omega
    have hp2 : ¬(r < minThr) := by omega
    unfold decideAxis
    rw [if_neg hp1, if_neg hp2]
  · unfold raiseCond lowerCond holdCond
    by_cases h1 : thrMin < r ∧ r ≤ thrMax
    · exact Or.inl ⟨h1, fun c => c.1 h1, fun c => c.1 h1⟩
    · by_cases h2 : r < minThr
      · exact Or.inr (Or.inl ⟨⟨h1, h2⟩, h1, fun c => by omega⟩)
      · exact Or.inr (Or.inr ⟨⟨h1, by omega⟩, h1, fun c => by omega⟩)
  · intro bh s ct xv yv bs hg hb
    exact tick_no_button_angles bh s ct xv yv bs hg hb

/-- Witness for axis_decision_trichotomy: each implication applied at
concrete readings under the default configuration. -/
theorem axis_decision_trichotomy_witness :
    decideAxis 760 780 250 15 0 180 90 770 = (min (90 + 15) 180, true) ∧
    decideAxis 760 780 250 15 0 180 90 200 = (max (90 - 15) 0, true) ∧
    decideAxis 760 780 250 15 0 180 90 500 = (90, false) ∧
    (tick none baseState 200 770 500 1).1.xAngle =
      (decideAxis baseState.xMaxThresholdMin baseState.xMaxThresholdMax
        baseState.xMinThreshold baseState.servoStep baseState.servoMinAngle
        baseState.servoMaxAngle baseState.xAngle 770).1 :=
  ⟨(axis_decision_trichotomy 760 780 250 15 0 180 90 770).1 ⟨by decide, by decide⟩,
   (axis_decision_trichotomy 760 780 250 15 0 180 90 200).2.1
     (fun c => absurd c.1 (by decide)) (by decide),
   (axis_decision_trichotomy 760 780 250 15 0 180 90 500).2.2.1 (by decide) (by decide),
   ((axis_decision_trichotomy 760 780 250 15 0 180 90 770).2.2.2.2 none baseState
      200 770 500 1 (by decide) (by decide)).1⟩

/-- C8: with the default configuration (min 0, max 180, initial 90, step 15,
X band 760-780, X minimum threshold 250), the button unpressed, a neutral Y
reading and the 100ms gate satisfied on each tick, the X reading sequence
770, 770, 200 drives the X angle 90 → 105 → 120 → 105. -/
theorem scenario_x_sequence :
    baseState.xAngle = 90 ∧
    (runTicks baseState [⟨200, 770, 500, 1⟩]).xAngle = 105 ∧
    (runTicks baseState [⟨200, 770, 500, 1⟩, ⟨400, 770, 500, 1⟩]).xAngle = 120 ∧
    (runTicks baseState
      [⟨200, 770, 500, 1⟩, ⟨400, 770, 500, 1⟩, ⟨600, 200, 500, 1⟩]).xAngle = 105 := by
  decide

/-- C5: on every gated tick whose button read is 0 (active-low pressed),
the registered button handler is invoked when present; when absent, both
axes' current angles are set to the initial angle (and the tick acts).
This holds for every such tick, so it is level-triggered, firing again on
each gated tick while the button is held. -/
theorem button_level_triggered (s : State) (f : State → State) (ct xv yv : Int)
    (hg : ct - s.lastActionTime > 100) :
    (tick (some f) s ct xv yv 0).2.buttonCb = true ∧
    (tick none s ct xv yv 0).2.buttonCb = false ∧
    (tick none s ct xv yv 0).1.xAngle = s.servoInitAngle ∧
    (tick none s ct xv yv 0).1.yAngle = s.servoInitAngle ∧
    (tick none s ct xv yv 0).2.acted = true := by
  have e1 : tick (some f) s ct xv yv 0 = gatedBody (some f) s ct xv yv 0 := by
    unfold tick
    rw [if_pos hg]
  have e2 : tick none s ct xv yv 0 = gatedBody none s ct xv yv 0 := by
    unfold tick
    rw [if_pos hg]
  rw [e1, e2]
  unfold gatedBody buttonBranch
  simp [moveServos_state, decisionX, decisionY]

/-- Witness for button_level_triggered at the default state with neutral
readings and the gate satisfied. -/
theorem button_level_triggered_witness :
    (tick (some id) baseState 200 500 500 0).2.buttonCb = true ∧
    (tick none baseState 200 500 500 0).1.xAngle = baseState.servoInitAngle ∧
    (tick none baseState 200 500 500 0).2.acted = true :=
  ⟨(button_level_triggered baseState id 200 500 500 (by decide)).1,
   (button_level_triggered baseState id 200 500 500 (by decide)).2.2.1,
   (button_level_triggered baseState id 200 500 500 (by decide)).2.2.2.2⟩

/-- C10: on a gated tick with the button pressed and a handler registered,
the snap-to-initial default is not applied — the final angles are exactly
those produced by the handler on the post-decision state — yet the tick is
still marked as acted, `lastActionTime` is set to the tick time and the
actuation pass runs, even when neither angle differs from its last
commanded value. -/
theorem button_handler_frame (s : State) (f : State → State) (ct xv yv : Int)
    (hg : ct - s.lastActionTime > 100) :
    (tick (some f) s ct xv yv 0).2.buttonCb = true ∧
    (tick (some f) s ct xv yv 0).2.acted = true ∧
    (tick (some f) s ct xv yv 0).1.lastActionTime = ct ∧
    (tick (some f) s ct xv yv 0).1.xAngle =
      (f (decisionY (decisionX s xv).1 yv).1).xAngle ∧
    (tick (some f) s ct xv yv 0).1.yAngle =
      (f (decisionY (decisionX s xv).1 yv).1).yAngle := by
  have e1 : tick (some f) s ct xv yv 0 = gatedBody (some f) s ct xv yv 0 := by
    unfold tick
    rw [if_pos hg]
  rw [e1]
  unfold gatedBody buttonBranch
  simp [moveServos_state]

/-- Witness for button_handler_frame with the identity handler at the
default state, where no angle differs from its last commanded value yet
the tick still acts. -/
theorem button_handler_frame_witness :
    (tick (some id) baseState 200 500 500 0).2.buttonCb = true ∧
    (tick (some id) baseState 200 500 500 0).2.acted = true ∧
    (tick (some id) baseState 200 500 500 0).1.lastActionTime = 200 ∧
    (tick (some id) baseState 200 500 500 0).1.xAngle =
      (id (decisionY (decisionX baseState 500).1 500).1).xAngle :=
  ⟨(button_handler_frame baseState id 200 500 500 (by decide)).1,
   (button_handler_frame baseState id 200 500 500 (by decide)).2.1,
   (button_handler_frame baseState id 200 500 500 (by decide)).2.2.1,
   (button_handler_frame baseState id 200 500 500 (by decide)).2.2.2.1⟩

/-- C6: setServoLimits overwrites all four configuration fields and
immediately sets both axes' current angles to the new initial angle,
without touching the last commanded angles; when the new initial angle
differs from an axis's last commanded angle, the next actuation pass
writes it to that servo. -/
theorem setServoLimits_overwrites_and_recenters (s : State) (mn mx ia st : Int) :
    (setServoLimits s mn mx ia st).servoMinAngle = mn ∧
    (setServoLimits s mn mx ia st).servoMaxAngle = mx ∧
    (setServoLimits s mn mx ia st).servoInitAngle = ia ∧
    (setServoLimits s mn mx ia st).servoStep = st ∧
    (setServoLimits s mn mx ia st).xAngle = ia ∧
    (setServoLimits s mn mx ia st).yAngle = ia ∧
    (setServoLimits s mn mx ia st).lastXAngle = s.lastXAngle ∧
    (setServoLimits s mn mx ia st).lastYAngle = s.lastYAngle ∧
    (ia ≠ s.lastXAngle →
      (moveServos (setServoLimits s mn mx ia st)).2.writeX = some ia) ∧
    (ia ≠ s.lastYAngle →
      (moveServos (setServoLimits s mn mx ia st)).2.writeY = some ia) := by
  refine ⟨rfl, rfl, rfl, rfl, rfl, rfl, rfl, rfl, ?_, ?_⟩
  · intro h
    rw [moveServos_writeX]
    simp [setServoLimits, h]
  · intro h
    rw [moveServos_writeY]
    simp [setServoLimits, h]

/-- Witness for setServoLimits_overwrites_and_recenters with a new initial
angle that differs from the last commanded angles. -/
theorem setServoLimits_overwrites_and_recenters_witness :
    ((10 : Int) ≠ baseState.lastXAngle) ∧
    (moveServos (setServoLimits baseState 0 170 10 5)).2.writeX = some 10 :=
  ⟨by decide,
   (setServoLimits_overwrites_and_recenters baseState 0 170 10 5).2.2.2.2.2.2.2.2.1
     (by decide)⟩

lemma constrain_bounds (v lo hi : Int) (h : lo ≤ hi) :
    lo ≤ constrain v lo hi ∧ constrain v lo hi ≤ hi := by
  unfold constrain
  exact ⟨le_min (le_max_right _ _) h, min_le_right _ _⟩

/-- C9: setServoAngles stores Math.constrain of each argument into the
angle bounds before actuating, so whenever servoMinAngle ≤ servoMaxAngle
the getters return values inside the bounds even for out-of-range
arguments. -/
theorem setServoAngles_clamps (s : State) (xa ya : Int) :
    (setServoAngles s xa ya).1.xAngle = constrain xa s.servoMinAngle s.servoMaxAngle ∧
    (setServoAngles s xa ya).1.yAngle = constrain ya s.servoMinAngle s.servoMaxAngle ∧
    getXAngle (setServoAngles s xa ya).1 = constrain xa s.servoMinAngle s.servoMaxAngle ∧
    getYAngle (setServoAngles s xa ya).1 = constrain ya s.servoMinAngle s.servoMaxAngle ∧
    (s.servoMinAngle ≤ s.servoMaxAngle →
      s.servoMinAngle ≤ getXAngle (setServoAngles s xa ya).1 ∧
      getXAngle (setServoAngles s xa ya).1 ≤ s.servoMaxAngle ∧
      s.servoMinAngle ≤ getYAngle (setServoAngles s xa ya).1 ∧
      getYAngle (setServoAngles s xa ya).1 ≤ s.servoMaxAngle) := by
  have hx : (setServoAngles s xa ya).1.xAngle =
      constrain xa s.servoMinAngle s.servoMaxAngle := by
    unfold setServoAngles
    rw [moveServos_state]
  have hy : (setServoAngles s xa ya).1.yAngle =
      constrain ya s.servoMinAngle s.servoMaxAngle := by
    unfold setServoAngles
    rw [moveServos_state]
  refine ⟨hx, hy, hx, hy, ?_⟩
  intro h
  unfold getXAngle getYAngle
  rw [hx, hy]
  exact ⟨(constrain_bounds xa _ _ h).1, (constrain_bounds xa _ _ h).2,
         (constrain_bounds ya _ _ h).1, (constrain_bounds ya _ _ h).2⟩

/-- Witness for setServoAngles_clamps with out-of-range arguments 500 and
-20 under the default bounds 0..180. -/
theorem setServoAngles_clamps_witness :
    getXAngle (setServoAngles baseState 500 (-20)).1 =
      constrain 500 baseState.servoMinAngle baseState.servoMaxAngle ∧
    baseState.servoMinAngle ≤ getYAngle (setServoAngles baseState 500 (-20)).1 ∧
    getXAngle (setServoAngles baseState 500 (-20)).1 ≤ baseState.servoMaxAngle :=
  ⟨(setServoAngles_clamps baseState 500 (-20)).2.2.1,
   ((setServoAngles_clamps baseState 500 (-20)).2.2.2.2 (by decide)).2.2.1,
   ((setServoAngles_clamps baseState 500 (-20)).2.2.2.2 (by decide)).2.1⟩

/-- C7 counterexample: at the upper bound (X angle 180 = servoMaxAngle)
with an in-band X reading 770, a neutral Y reading, the button unpressed
and the gate satisfied, the tick updates lastActionTime from 0 to the tick
time 200 although neither axis's angle changed and the button did not
fire — refuting "lastActionTimestamp is updated exactly on ticks where
some axis changed or the button fired". -/
theorem gate_timestamp_counterexample :
    (tick none { baseState with xAngle := 180, lastXAngle := 180 }
        200 770 500 1).1.lastActionTime = 200 ∧
    { baseState with xAngle := 180, lastXAngle := 180 }.lastActionTime = 0 ∧
    (tick none { baseState with xAngle := 180, lastXAngle := 180 }
        200 770 500 1).1.xAngle =
      { baseState with xAngle := 180, lastXAngle := 180 }.xAngle ∧
    (tick none { baseState with xAngle := 180, lastXAngle := 180 }
        200 770 500 1).1.yAngle =
      { baseState with xAngle := 180, lastXAngle := 180 }.yAngle ∧
    (1 : Int) ≠ 0 := by
  decide

/-- C7 amended: the decision phase runs only when
`currentTime - lastActionTime > 100`; a tick below the gate leaves the
state unchanged and emits no write, no callback and no action.  Under the
gate, lastActionTime is set to the tick time exactly when some axis's
increase or decrease branch fired (even if clamping left that angle
unchanged) or the button read pressed. -/
theorem gate_timestamp_behavior (bh : Option (State → State)) (s : State)
    (ct xv yv bs : Int) :
    (¬(ct - s.lastActionTime > 100) → tick bh s ct xv yv bs = (s, emptyOut)) ∧
    (ct - s.lastActionTime > 100 →
      ((tick bh s ct xv yv bs).1.lastActionTime = ct ↔
        ((decisionX s xv).2 = true ∨ (decisionY (decisionX s xv).1 yv).2 = true ∨
          bs = 0))) := by
  constructor
  · intro h
    unfold tick
    rw [if_neg h]
  · intro hg
    have e : tick bh s ct xv yv bs = gatedBody bh s ct xv yv bs := by
      unfold tick
      rw [if_pos hg]
    rw [e]
    unfold gatedBody
    rcases bh with _ | f <;> by_cases hb : bs = 0
    · simp [buttonBranch, hb, moveServos_state]
    · simp only [buttonBranch, if_neg hb]
      split
      · rename_i hcond
        simp only [Bool.or_false] at hcond
        simp [moveServos_state, hb]
        rw [Bool.or_eq_true] at hcond
        tauto
      · rename_i hcond
        simp only [Bool.or_false] at hcond
        simp [hb, decisionX, decisionY]
        constructor
        · intro hlat
          exfalso
          have : (decisionY (decisionX s xv).1 yv).1.lastActionTime = s.lastActionTime := by
            simp [decisionX, decisionY]
          omega
        · intro hor
          simp [decisionX, decisionY] at hcond
          rcases hor with h1 | h1 <;> simp [h1] at hcond
    · simp [buttonBranch, hb, moveServos_state]
    · simp only [buttonBranch, if_neg hb]
      split
      · rename_i hcond
        simp only [Bool.or_false] at hcond
        simp [moveServos_state, hb]
        rw [Bool.or_eq_true] at hcond
        tauto
      · rename_i hcond
        simp only [Bool.or_false] at hcond
        simp [hb, decisionX, decisionY]
        constructor
        · intro hlat
          exfalso
          have : (decisionY (decisionX s xv).1 yv).1.lastActionTime = s.lastActionTime := by
            simp [decisionX, decisionY]
          omega
        · intro hor
          simp [decisionX, decisionY] at hcond
          rcases hor with h1 | h1 <;> simp [h1] at hcond

/-- Witness for gate_timestamp_behavior: a tick below the gate is a no-op,
and a gated tick's lastActionTime condition at a concrete state. -/
theorem gate_timestamp_behavior_witness :
    tick none baseState 50 770 500 1 = (baseState, emptyOut) ∧
    ((tick none baseState 200 770 500 1).1.lastActionTime = 200 ↔
      ((decisionX baseState 770).2 = true ∨
        (decisionY (decisionX baseState 770).1 500).2 = true ∨ (1 : Int) = 0)) :=
  ⟨(gate_timestamp_behavior none baseState 50 770 500 1).1 (by decide),
   (gate_timestamp_behavior none baseState 200 770 500 1).2 (by decide)⟩

lemma decideAxis_bounds (thrMin thrMax minThr step mn mx a r : Int)
    (h1 : mn ≤ a) (h2 : a ≤ mx) (h3 : 0 ≤ step) (h4 : mn ≤ mx) :
    mn ≤ (decideAxis thrMin thrMax minThr step mn mx a r).1 ∧
    (decideAxis thrMin thrMax minThr step mn mx a r).1 ≤ mx := by
  by_cases hA : thrMin < r ∧ r ≤ thrMax
  · simp [decideAxis, hA, le_min_iff, min_le_iff]
    omega
  · by_cases hB : r < minThr
    · simp [decideAxis, hA, hB, le_max_iff, max_le_iff]
      omega
    · simp [decideAxis, hA, hB]
      omega

/-- Configuration sanity: the initial angle lies between the bounds and the
step is positive. -/
def cfgOK (s : State) : Prop :=
  s.servoMinAngle ≤ s.servoInitAngle ∧ s.servoInitAngle ≤ s.servoMaxAngle ∧
  0 < s.servoStep

/-- The state keeps the configuration of `c` and both angles inside its
bounds. -/
def goodFor (c s : State) : Prop :=
  s.servoMinAngle = c.servoMinAngle ∧ s.servoMaxAngle = c.servoMaxAngle ∧
  s.servoInitAngle = c.servoInitAngle ∧ s.servoStep = c.servoStep ∧
  c.servoMinAngle ≤ s.xAngle ∧ s.xAngle ≤ c.servoMaxAngle ∧
  c.servoMinAngle ≤ s.yAngle ∧ s.yAngle ≤ c.servoMaxAngle

lemma tick_none_good (c : State) (hc : cfgOK c) (s : State) (h : goodFor c s)
    (ct xv yv bs : Int) : goodFor c (tick none s ct xv yv bs).1 := by
  obtain ⟨e1, e2, e3, e4, b1, b2, b3, b4⟩ := h
  obtain ⟨c1, c2, c3⟩ := hc
  have hx := decideAxis_bounds s.xMaxThresholdMin s.xMaxThresholdMax s.xMinThreshold
    s.servoStep s.servoMinAngle s.servoMaxAngle s.xAngle xv
    (by omega) (by omega) (by omega) (by omega)
  have hy := decideAxis_bounds s.yMaxThresholdMin s.yMaxThresholdMax s.yMinThreshold
    s.servoStep s.servoMinAngle s.servoMaxAngle s.yAngle yv
    (by omega) (by omega) (by omega) (by omega)
  unfold tick
  split
  · unfold gatedBody
    by_cases hb : bs = 0
    · simp [buttonBranch, hb, moveServos_state, decisionX, decisionY, goodFor]
      omega
    · simp only [buttonBranch, if_neg hb]
      split
      · simp [moveServos_state, decisionX, decisionY, goodFor]
        omega
      · simp [decisionX, decisionY, goodFor]
        omega
  · exact ⟨e1, e2, e3, e4, b1, b2, b3, b4⟩

lemma runTicks_good (c : State) (hc : cfgOK c) (l : List TickIn) :
    ∀ s : State, goodFor c s → goodFor c (runTicks s l) := by
  induction l with
  | nil => intro s h; exact h
  | cons i rest ih =>
    intro s h
    exact ih _ (tick_none_good c hc s h i.currentTime i.xValue i.yValue i.buttonState)

/-- C2: with the configuration invariant servoMinAngle ≤ servoInitAngle ≤
servoMaxAngle and a positive step, both current angles stay within
[servoMinAngle, servoMaxAngle] after any number of main-loop ticks, and
the clamp is idempotent at the bounds: an increase branch firing at
servoMaxAngle leaves the angle at servoMaxAngle and a decrease branch
firing at servoMinAngle leaves it at servoMinAngle. -/
theorem angle_range_invariant (s : State) (l : List TickIn)
    (h1 : s.servoMinAngle ≤ s.servoInitAngle) (h2 : s.servoInitAngle ≤ s.servoMaxAngle)
    (h3 : 0 < s.servoStep)
    (h4 : s.servoMinAngle ≤ s.xAngle) (h5 : s.xAngle ≤ s.servoMaxAngle)
    (h6 : s.servoMinAngle ≤ s.yAngle) (h7 : s.yAngle ≤ s.servoMaxAngle) :
    (s.servoMinAngle ≤ (runTicks s l).xAngle ∧ (runTicks s l).xAngle ≤ s.servoMaxAngle ∧
     s.servoMinAngle ≤ (runTicks s l).yAngle ∧ (runTicks s l).yAngle ≤ s.servoMaxAngle) ∧
    (∀ r, s.xMaxThresholdMin < r → r ≤ s.xMaxThresholdMax →
      (decideAxis s.xMaxThresholdMin s.xMaxThresholdMax s.xMinThreshold s.servoStep
        s.servoMinAngle s.servoMaxAngle s.servoMaxAngle r).1 = s.servoMaxAngle) ∧
    (∀ r, ¬(s.xMaxThresholdMin < r ∧ r ≤ s.xMaxThresholdMax) → r < s.xMinThreshold →
      (decideAxis s.xMaxThresholdMin s.xMaxThresholdMax s.xMinThreshold s.servoStep
        s.servoMinAngle s.servoMaxAngle s.servoMinAngle r).1 = s.servoMinAngle) := by
  obtain ⟨g1, g2, g3, g4, g5, g6, g7, g8⟩ :=
    runTicks_good s ⟨h1, h2, h3⟩ l s ⟨rfl, rfl, rfl, rfl, h4, h5, h6, h7⟩
  refine ⟨⟨g5, g6, g7, g8⟩, ?_, ?_⟩
  · intro r hr1 hr2
    unfold decideAxis
    rw [if_pos ⟨hr1, hr2⟩]
    have hle : s.servoMaxAngle ≤ s.servoMaxAngle + s.servoStep := by omega
    simp [min_eq_right hle]
  · intro r hr1 hr2
    unfold decideAxis
    rw [if_neg hr1, if_pos hr2]
    have hle : s.servoMinAngle - s.servoStep ≤ s.servoMinAngle := by omega
    simp [max_eq_right hle]

/-- Witness for angle_range_invariant: the default state, one in-band tick,
and the increase clamp applied at the upper bound. -/
theorem angle_range_invariant_witness :
    baseState.servoMinAngle ≤ (runTicks baseState [⟨200, 770, 500, 1⟩]).xAngle ∧
    (runTicks baseState [⟨200, 770, 500, 1⟩]).xAngle ≤ baseState.servoMaxAngle ∧
    (decideAxis baseState.xMaxThresholdMin baseState.xMaxThresholdMax
      baseState.xMinThreshold baseState.servoStep baseState.servoMinAngle
      baseState.servoMaxAngle baseState.servoMaxAngle 770).1 = baseState.servoMaxAngle :=
  ⟨(angle_range_invariant baseState [⟨200, 770, 500, 1⟩] (by decide) (by decide)
      (by decide) (by decide) (by decide) (by decide) (by decide)).1.1,
   (angle_range_invariant baseState [⟨200, 770, 500, 1⟩] (by decide) (by decide)
      (by decide) (by decide) (by decide) (by decide) (by decide)).1.2.1,
   (angle_range_invariant baseState [⟨200, 770, 500, 1⟩] (by decide) (by decide)
      (by decide) (by decide) (by decide) (by decide) (by decide)).2.1 770
      (by decide) (by decide)⟩

end JoystickServo
